import Mathlib

/-!
# Package `oss` (`oss/oss.go`): a private object-store client

The Go file wraps the Aliyun OSS SDK: `NewClient` builds an instance with a nil
session handle, `Start` opens a session and makes sure the bucket exists,
`Upload` writes an object with the private ACL and `GetSignedURL` asks the SDK
for a GET-scoped signed URL.

The SDK and the remote service are not part of the file.  They enter the
embedding as a parameter `SDK W C B`: `W` is the state of the remote service,
`C` the SDK's `oss.Client`, `B` the SDK's `oss.Bucket`, and every SDK function
is a state transformer on `W` returning the Go result tuple.  A Go `error` is
`Option GoError` (`none` is `nil`), a Go pointer is an `Option` (`none` is
`nil`).  Every function of the file returns, next to its Go results, the
receiver after the call, the service state after the call, the SDK calls it
issued (in order) and the zerolog lines it wrote.

The methods of `oss.Client` and `oss.Bucket` that the file calls are declared by
the SDK with value receivers (`func (client Client) Bucket(...)`,
`func (bucket Bucket) PutObject(...)`), so calling one through a nil pointer is a
run-time panic (nil pointer dereference) in Go; that is the `panicked` outcome.
The embedded `*OSSCOnfig` is taken to be non-nil.
-/

namespace oss

/-- A non-nil Go `error` value. -/
structure GoError where
  msg : String
deriving DecidableEq, Repr

/-- The SDK's `oss.ACLType` constants. -/
inductive ACLType where
  | ACLPrivate
  | ACLPublicRead
  | ACLPublicReadWrite
  | ACLDefault
deriving DecidableEq, Repr

/-- The SDK's `oss.HTTPMethod` constants. -/
inductive HTTPMethod where
  | HTTPGet
  | HTTPPut
  | HTTPHead
  | HTTPPost
  | HTTPDelete
deriving DecidableEq, Repr

/-- The SDK's request options (`oss.Option` values); the file builds only `oss.ObjectACL(acl)`. -/
inductive SDKOption where
  | ObjectACL (acl : ACLType)
deriving DecidableEq, Repr

/-- Go struct `OSSCOnfig`. -/
structure OSSCOnfig where
  Endpoint : String
  AccessKeyId : String
  AccessKeySecret : String
  Bucket : String
  Url : String
deriving DecidableEq, Repr

/-- Go struct `ossInstance`: the embedded config and the session handle `client *oss.Client`. -/
structure ossInstance (C : Type) where
  OSSCOnfig : OSSCOnfig
  client : Option C

/-- One SDK call as the file issued it: the arguments passed and the results received. -/
inductive Event (C B : Type) where
  | New (endpoint accessKeyID accessKeySecret : String) (client : Option C) (err : Option GoError)
  | IsBucketExist (client : C) (bucketName : String) (exist : Bool) (err : Option GoError)
  | CreateBucket (client : C) (bucketName : String) (err : Option GoError)
  | Bucket (client : C) (bucketName : String) (bucket : Option B) (err : Option GoError)
  | PutObject (bucket : B) (objectKey : String) (data : List UInt8) (options : List SDKOption)
      (err : Option GoError)
  | SignURL (bucket : B) (objectKey : String) (method : HTTPMethod) (expiredInSec : Int)
      (signedURL : String) (err : Option GoError)

/-- The error result of an SDK call. -/
def Event.err {C B : Type} : Event C B → Option GoError
  | .New _ _ _ _ e => e
  | .IsBucketExist _ _ _ e => e
  | .CreateBucket _ _ e => e
  | .Bucket _ _ _ e => e
  | .PutObject _ _ _ _ e => e
  | .SignURL _ _ _ _ _ e => e

/-- Session creation (`oss.New`). -/
def Event.isNew {C B : Type} : Event C B → Bool
  | .New _ _ _ _ _ => true
  | _ => false

/-- Bucket existence check (`client.IsBucketExist`). -/
def Event.isIsBucketExist {C B : Type} : Event C B → Bool
  | .IsBucketExist _ _ _ _ => true
  | _ => false

/-- Bucket creation (`client.CreateBucket`). -/
def Event.isCreateBucket {C B : Type} : Event C B → Bool
  | .CreateBucket _ _ _ => true
  | _ => false

/-- Bucket-handle resolution (`client.Bucket`). -/
def Event.isBucket {C B : Type} : Event C B → Bool
  | .Bucket _ _ _ _ => true
  | _ => false

/-- Object write (`bucket.PutObject`). -/
def Event.isPutObject {C B : Type} : Event C B → Bool
  | .PutObject _ _ _ _ _ => true
  | _ => false

/-- URL signing (`bucket.SignURL`). -/
def Event.isSignURL {C B : Type} : Event C B → Bool
  | .SignURL _ _ _ _ _ _ => true
  | _ => false

/-- One zerolog line `log.Error().Err(err).Msg(msg)`. -/
structure LogLine where
  msg : String
  err : GoError
deriving DecidableEq, Repr

/-- The SDK functions the file calls, over a service state `W`; each returns the Go result
tuple and the service state after the call. -/
structure SDK (W C B : Type) where
  New : String → String → String → W → (Option C × Option GoError) × W
  IsBucketExist : C → String → W → (Bool × Option GoError) × W
  CreateBucket : C → String → W → Option GoError × W
  Bucket : C → String → W → (Option B × Option GoError) × W
  PutObject : B → String → List UInt8 → List SDKOption → W → Option GoError × W
  SignURL : B → String → HTTPMethod → Int → W → (String × Option GoError) × W

/-- How a Go call ends: it returns its results, or it panics. -/
inductive Outcome (α : Type) where
  | returned (val : α)
  | panicked
deriving DecidableEq, Repr

/-- Everything a method call leaves behind. -/
structure Ret (W C B α : Type) where
  out : Outcome α
  self : ossInstance C
  world : W
  calls : List (Event C B)
  logs : List LogLine

/-- Go `NewClient`: the config and a nil session handle. -/
def NewClient {C : Type} (conf : OSSCOnfig) : ossInstance C :=
  ⟨conf, none⟩

/-- Go `(*ossInstance).Start`.  The named results `client` and `err` are the ones every
assignment of the body writes (`exist, err := ...` declares only `exist`), and each bare
`return` hands back their current values. -/
def Start {W C B : Type} (sdk : SDK W C B) (o : ossInstance C) (w : W) :
    Ret W C B (Option C × Option GoError) :=
  let evNew := Event.New o.OSSCOnfig.Endpoint o.OSSCOnfig.AccessKeyId o.OSSCOnfig.AccessKeySecret
  match sdk.New o.OSSCOnfig.Endpoint o.OSSCOnfig.AccessKeyId o.OSSCOnfig.AccessKeySecret w with
  | ((client, some err), w1) =>
    ⟨.returned (client, some err), o, w1, [evNew client (some err)],
      [⟨"error on starting oss client", err⟩]⟩
  | ((none, none), w1) =>
    -- client.IsBucketExist through a nil *oss.Client
    ⟨.panicked, o, w1, [evNew none none], []⟩
  | ((some c, none), w1) =>
    match sdk.IsBucketExist c o.OSSCOnfig.Bucket w1 with
    | ((exist, some err), w2) =>
      ⟨.returned (some c, some err), o, w2,
        [evNew (some c) none, .IsBucketExist c o.OSSCOnfig.Bucket exist (some err)],
        [⟨"error on check bucket", err⟩]⟩
    | ((true, none), w2) =>
      ⟨.returned (some c, none), ⟨o.OSSCOnfig, some c⟩, w2,
        [evNew (some c) none, .IsBucketExist c o.OSSCOnfig.Bucket true none], []⟩
    | ((false, none), w2) =>
      match sdk.CreateBucket c o.OSSCOnfig.Bucket w2 with
      | (some err, w3) =>
        ⟨.returned (some c, some err), o, w3,
          [evNew (some c) none, .IsBucketExist c o.OSSCOnfig.Bucket false none,
            .CreateBucket c o.OSSCOnfig.Bucket (some err)],
          [⟨"error on create bucket", err⟩]⟩
      | (none, w3) =>
        ⟨.returned (some c, none), ⟨o.OSSCOnfig, some c⟩, w3,
          [evNew (some c) none, .IsBucketExist c o.OSSCOnfig.Bucket false none,
            .CreateBucket c o.OSSCOnfig.Bucket none], []⟩

/-- Go `(*ossInstance).Upload`.  The SDK reads `bytes.NewReader(object)`, that is the bytes of
`object` in order; the reader is the list of bytes here. -/
def Upload {W C B : Type} (sdk : SDK W C B) (o : ossInstance C) (key : String)
    (object : List UInt8) (w : W) : Ret W C B (Option GoError) :=
  match o.client with
  | none =>
    -- o.client.Bucket through a nil *oss.Client
    ⟨.panicked, o, w, [], []⟩
  | some c =>
    match sdk.Bucket c o.OSSCOnfig.Bucket w with
    | ((bucket, some err), w1) =>
      ⟨.returned (some err), o, w1, [.Bucket c o.OSSCOnfig.Bucket bucket (some err)],
        [⟨"error on access bucket", err⟩]⟩
    | ((none, none), w1) =>
      -- bucket.PutObject through a nil *oss.Bucket
      ⟨.panicked, o, w1, [.Bucket c o.OSSCOnfig.Bucket none none], []⟩
    | ((some b, none), w1) =>
      match sdk.PutObject b key object [.ObjectACL .ACLPrivate] w1 with
      | (some err, w2) =>
        ⟨.returned (some err), o, w2,
          [.Bucket c o.OSSCOnfig.Bucket (some b) none,
            .PutObject b key object [.ObjectACL .ACLPrivate] (some err)],
          [⟨"error on put file to bucket", err⟩]⟩
      | (none, w2) =>
        ⟨.returned none, o, w2,
          [.Bucket c o.OSSCOnfig.Bucket (some b) none,
            .PutObject b key object [.ObjectACL .ACLPrivate] none], []⟩

/-- Go `(*ossInstance).GetSignedURL`.  The `int64` argument `expiredInSec` is handed to the SDK
unchanged (no arithmetic on it), so it is an `Int` here. -/
def GetSignedURL {W C B : Type} (sdk : SDK W C B) (o : ossInstance C) (key : String)
    (expiredInSec : Int) (w : W) : Ret W C B (String × Option GoError) :=
  match o.client with
  | none =>
    -- o.client.Bucket through a nil *oss.Client
    ⟨.panicked, o, w, [], []⟩
  | some c =>
    match sdk.Bucket c o.OSSCOnfig.Bucket w with
    | ((bucket, some err), w1) =>
      ⟨.returned ("", some err), o, w1, [.Bucket c o.OSSCOnfig.Bucket bucket (some err)],
        [⟨"error on access bucket", err⟩]⟩
    | ((none, none), w1) =>
      -- bucket.SignURL through a nil *oss.Bucket
      ⟨.panicked, o, w1, [.Bucket c o.OSSCOnfig.Bucket none none], []⟩
    | ((some b, none), w1) =>
      match sdk.SignURL b key .HTTPGet expiredInSec w1 with
      | ((signedURL, some err), w2) =>
        ⟨.returned (signedURL, some err), o, w2,
          [.Bucket c o.OSSCOnfig.Bucket (some b) none,
            .SignURL b key .HTTPGet expiredInSec signedURL (some err)],
          [⟨"error on generating signed url", err⟩]⟩
      | ((signedURL, none), w2) =>
        ⟨.returned (signedURL, none), o, w2,
          [.Bucket c o.OSSCOnfig.Bucket (some b) none,
            .SignURL b key .HTTPGet expiredInSec signedURL none], []⟩

/-! ## Sequences of calls on one instance -/

/-- One call of the public interface. -/
inductive Op where
  | Start
  | Upload (key : String) (object : List UInt8)
  | GetSignedURL (key : String) (expiredInSec : Int)
deriving DecidableEq, Repr

/-- What the caller of one call observes. -/
inductive OpResult (C : Type) where
  | Start (out : Outcome (Option C × Option GoError))
  | Upload (out : Outcome (Option GoError))
  | GetSignedURL (out : Outcome (String × Option GoError))

/-- One executed call: the call, what the caller observed, the SDK calls it issued. -/
structure Step (C B : Type) where
  op : Op
  result : OpResult C
  calls : List (Event C B)

/-- Runs one call; gives the executed step, the instance and the service state after it. -/
def exec {W C B : Type} (sdk : SDK W C B) (o : ossInstance C) (w : W) :
    Op → Step C B × ossInstance C × W
  | .Start =>
    let r := Start sdk o w
    (⟨.Start, .Start r.out, r.calls⟩, r.self, r.world)
  | .Upload key object =>
    let r := Upload sdk o key object w
    (⟨.Upload key object, .Upload r.out, r.calls⟩, r.self, r.world)
  | .GetSignedURL key expiredInSec =>
    let r := GetSignedURL sdk o key expiredInSec w
    (⟨.GetSignedURL key expiredInSec, .GetSignedURL r.out, r.calls⟩, r.self, r.world)

/-- Runs a sequence of calls on one instance, each on the instance and the service state the
previous one left (after a panic: the state at the panic, as a recovering caller sees it). -/
def run {W C B : Type} (sdk : SDK W C B) (o : ossInstance C) (w : W) : List Op → List (Step C B)
  | [] => []
  | op :: ops =>
    let s := exec sdk o w op
    s.1 :: run sdk s.2.1 s.2.2 ops

/-- The SDK calls of a successful `Start`: the session was created, and the bucket was
observed to exist or was created. -/
def startConfirmed {C B : Type} (bucketName : String) (calls : List (Event C B)) : Prop :=
  ∃ endpoint accessKeyID accessKeySecret c,
    calls = [.New endpoint accessKeyID accessKeySecret (some c) none,
      .IsBucketExist c bucketName true none] ∨
    calls = [.New endpoint accessKeyID accessKeySecret (some c) none,
      .IsBucketExist c bucketName false none, .CreateBucket c bucketName none]

/-! ## An in-memory storage service -/

/-- The session handle of the in-memory service. -/
structure MemClient where
  endpoint : String
  accessKeyID : String
  accessKeySecret : String
deriving DecidableEq, Repr

/-- The bucket handle of the in-memory service. -/
structure MemBucket where
  client : MemClient
  bucketName : String
deriving DecidableEq, Repr

/-- State of the in-memory service: the set of bucket names, and the map from (bucket, key)
to the stored payload. -/
structure MemStore where
  buckets : Finset String
  objects : String → String → Option (List UInt8)

/-- Which requests the in-memory service rejects, and with which error. -/
structure Faults where
  New : String → String → String → Option GoError
  IsBucketExist : String → Option GoError
  CreateBucket : String → Option GoError
  Bucket : String → Option GoError
  PutObject : String → String → List UInt8 → Option GoError
  SignURL : String → String → Int → Option GoError

/-- The service that rejects nothing. -/
def noFaults : Faults :=
  ⟨fun _ _ _ => none, fun _ => none, fun _ => none, fun _ => none, fun _ _ _ => none,
    fun _ _ _ => none⟩

/-- The in-memory service: create-bucket adds the name to the set of bucket names, put-object
replaces the entry of the map at (bucket, key); a rejected request changes nothing. -/
def memSDK (f : Faults) : SDK MemStore MemClient MemBucket where
  New := fun endpoint accessKeyID accessKeySecret s =>
    match f.New endpoint accessKeyID accessKeySecret with
    | some e => ((none, some e), s)
    | none => ((some ⟨endpoint, accessKeyID, accessKeySecret⟩, none), s)
  IsBucketExist := fun _ bucketName s =>
    match f.IsBucketExist bucketName with
    | some e => ((false, some e), s)
    | none => ((decide (bucketName ∈ s.buckets), none), s)
  CreateBucket := fun _ bucketName s =>
    match f.CreateBucket bucketName with
    | some e => (some e, s)
    | none => (none, ⟨insert bucketName s.buckets, s.objects⟩)
  Bucket := fun c bucketName s =>
    match f.Bucket bucketName with
    | some e => ((none, some e), s)
    | none => ((some ⟨c, bucketName⟩, none), s)
  PutObject := fun b objectKey data _ s =>
    match f.PutObject b.bucketName objectKey data with
    | some e => (some e, s)
    | none =>
      (none, ⟨s.buckets, fun bn k =>
        if bn = b.bucketName ∧ k = objectKey then some data else s.objects bn k⟩)
  SignURL := fun b objectKey _ expiredInSec s =>
    match f.SignURL b.bucketName objectKey expiredInSec with
    | some e => (("", some e), s)
    | none => (("signed://" ++ b.bucketName ++ "/" ++ objectKey, none), s)

/-- The empty in-memory service. -/
def emptyStore : MemStore :=
  ⟨∅, fun _ _ => none⟩

/-- The config of the spec's concrete scenario. -/
def exampleConfig : OSSCOnfig :=
  ⟨"store.example.com", "id", "secret", "assets-test", ""⟩

/-- The in-memory service that rejects every bucket-handle resolution. -/
def denyBucket : Faults :=
  ⟨fun _ _ _ => none, fun _ => none, fun _ => none, fun _ => some ⟨"AccessDenied"⟩,
    fun _ _ _ => none, fun _ _ _ => none⟩

/-- The in-memory service that rejects every create-bucket request. -/
def denyCreate : Faults :=
  ⟨fun _ _ _ => none, fun _ => none, fun _ => some ⟨"BucketAlreadyExists"⟩, fun _ => none,
    fun _ _ _ => none, fun _ _ _ => none⟩

/-- The session handle the in-memory service gives for `exampleConfig`. -/
def exampleClient : MemClient :=
  ⟨"store.example.com", "id", "secret"⟩

/-- The spec's concrete scenario: `Start` on the empty in-memory service. -/
def started : Ret MemStore MemClient MemBucket (Option MemClient × Option GoError) :=
  Start (memSDK noFaults) (NewClient exampleConfig) emptyStore

/-- The calls of the spec's concrete scenario. -/
def scenario : List Op :=
  [.Start, .Upload "report.pdf" [1, 2, 3], .GetSignedURL "report.pdf" 60]

/-- The put-object request of an `Upload` of the empty payload in the spec's scenario. -/
def examplePut : Event MemClient MemBucket :=
  .PutObject ⟨exampleClient, "assets-test"⟩ "report.pdf" [] [.ObjectACL .ACLPrivate] none

/-! ## A sequence of calls: what a non-nil session handle implies -/

/-- A call keeps the config; it leaves a non-nil session handle only if the handle was non-nil
before, or the call is a `Start` that returned a nil error after the session was created and
the bucket was observed to exist or was created. -/
theorem exec_client {W C B : Type} (sdk : SDK W C B) (o : ossInstance C) (w : W) (op : Op) :
    (exec sdk o w op).2.1.OSSCOnfig = o.OSSCOnfig ∧
    ((exec sdk o w op).2.1.client ≠ none → o.client ≠ none ∨
      ((exec sdk o w op).1.op = .Start ∧
        (∃ c, (exec sdk o w op).1.result = .Start (.returned (some c, none))) ∧
        startConfirmed o.OSSCOnfig.Bucket (exec sdk o w op).1.calls)) := by
  cases op with
  | Start =>
    rcases hn : sdk.New o.OSSCOnfig.Endpoint o.OSSCOnfig.AccessKeyId o.OSSCOnfig.AccessKeySecret w
      with ⟨⟨_ | c, _ | e⟩, w1⟩
    · simp [exec, Start, hn]
    · simp [exec, Start, hn]
    · rcases hx : sdk.IsBucketExist c o.OSSCOnfig.Bucket w1 with ⟨⟨_ | _, _ | e⟩, w2⟩
      · rcases hk : sdk.CreateBucket c o.OSSCOnfig.Bucket w2 with ⟨_ | e, w3⟩
        · simp [exec, Start, hn, hx, hk, startConfirmed]
        · simp [exec, Start, hn, hx, hk]
      · simp [exec, Start, hn, hx]
      · simp [exec, Start, hn, hx, startConfirmed]
      · simp [exec, Start, hn, hx]
    · simp [exec, Start, hn]
  | Upload key object =>
    cases hc : o.client with
    | none => simp [exec, Upload, hc]
    | some c =>
      rcases hb : sdk.Bucket c o.OSSCOnfig.Bucket w with ⟨⟨_ | b, _ | e⟩, w1⟩
      · simp [exec, Upload, hc, hb]
      · simp [exec, Upload, hc, hb]
      · rcases hp : sdk.PutObject b key object [.ObjectACL .ACLPrivate] w1 with ⟨_ | e, w2⟩ <;>
          simp [exec, Upload, hc, hb, hp]
      · simp [exec, Upload, hc, hb]
  | GetSignedURL key expiredInSec =>
    cases hc : o.client with
    | none => simp [exec, GetSignedURL, hc]
    | some c =>
      rcases hb : sdk.Bucket c o.OSSCOnfig.Bucket w with ⟨⟨_ | b, _ | e⟩, w1⟩
      · simp [exec, GetSignedURL, hc, hb]
      · simp [exec, GetSignedURL, hc, hb]
      · rcases hp : sdk.SignURL b key .HTTPGet expiredInSec w1 with ⟨⟨u, _ | e⟩, w2⟩ <;>
          simp [exec, GetSignedURL, hc, hb, hp]
      · simp [exec, GetSignedURL, hc, hb]

/-- A call that hands a signed URL with a nil error to its caller ran on a non-nil handle. -/
theorem exec_signed {W C B : Type} (sdk : SDK W C B) (o : ossInstance C) (w : W) (op : Op)
    (url : String)
    (h : (exec sdk o w op).1.result = .GetSignedURL (.returned (url, none))) :
    o.client ≠ none := by
  cases op with
  | Start => simp [exec] at h
  | Upload key object => simp [exec] at h
  | GetSignedURL key expiredInSec =>
    cases hc : o.client with
    | none => simp [exec, GetSignedURL, hc] at h
    | some c => simp

/-- Invariant of a run: a signed URL handed out at position `i` needs a handle that was
non-nil at the beginning of the run or a successful `Start` at a position before `i`. -/
theorem run_signed {W C B : Type} (sdk : SDK W C B) :
    ∀ (ops : List Op) (o : ossInstance C) (w : W) (i : Nat) (st : Step C B) (url : String),
      (run sdk o w ops)[i]? = some st →
      st.result = .GetSignedURL (.returned (url, none)) →
      o.client ≠ none ∨
      ∃ j, j < i ∧ ∃ st0 c, (run sdk o w ops)[j]? = some st0 ∧ st0.op = .Start ∧
        st0.result = .Start (.returned (some c, none)) ∧
        startConfirmed o.OSSCOnfig.Bucket st0.calls := by
  intro ops
  induction ops with
  | nil => intro o w i st url h; simp [run] at h
  | cons op ops ih =>
    intro o w i st url h hres
    cases i with
    | zero =>
      simp only [run, List.getElem?_cons_zero, Option.some.injEq] at h
      subst h
      exact Or.inl (exec_signed sdk o w op url hres)
    | succ i =>
      simp only [run, List.getElem?_cons_succ] at h
      have hex := exec_client sdk o w op
      rcases ih (exec sdk o w op).2.1 (exec sdk o w op).2.2 i st url h hres with hcl | hj
      · rcases hex.2 hcl with h0 | ⟨hop, ⟨c, hc⟩, hconf⟩
        · exact Or.inl h0
        · refine Or.inr ⟨0, Nat.succ_pos i, (exec sdk o w op).1, c, ?_, hop, hc, hconf⟩
          simp [run]
      · obtain ⟨j, hji, st0, c, hget, hop, hr, hconf⟩ := hj
        refine Or.inr ⟨j + 1, Nat.succ_lt_succ hji, st0, c, ?_, hop, hr, ?_⟩
        · simpa [run] using hget
        · rw [← hex.1]; exact hconf

/-! ## The claims -/

/-- C1 amended: on an instance whose session handle is nil, `Upload` does not return at
all, for every key and payload: it panics on the nil handle, having issued no SDK call (so no
put-object), written no log line and changed neither the service nor the instance. -/
theorem Upload_nil_client_panics {W C B : Type} (sdk : SDK W C B) (o : ossInstance C)
    (key : String) (object : List UInt8) (w : W) (h : o.client = none) :
    (Upload sdk o key object w).out = .panicked ∧
    (Upload sdk o key object w).calls = [] ∧
    (Upload sdk o key object w).logs = [] ∧
    (Upload sdk o key object w).world = w ∧
    (Upload sdk o key object w).self = o := by
  simp [Upload, h]

/-- Witness of C1, amended: the instance `NewClient` returns, on the empty in-memory service. -/
theorem Upload_nil_client_panics_witness :
    (NewClient exampleConfig : ossInstance MemClient).client = none ∧
    (Upload (memSDK noFaults) (NewClient exampleConfig) "report.pdf" [] emptyStore).out
      = .panicked ∧
    (Upload (memSDK noFaults) (NewClient exampleConfig) "report.pdf" [] emptyStore).calls
      = [] :=
  ⟨rfl,
    (Upload_nil_client_panics (memSDK noFaults) (NewClient exampleConfig) "report.pdf" []
      emptyStore rfl).1,
    (Upload_nil_client_panics (memSDK noFaults) (NewClient exampleConfig) "report.pdf" []
      emptyStore rfl).2.1⟩

/-- C1 as stated fails: `Upload` on the instance `NewClient` returns, before any `Start`,
panics; it returns no error value to its caller. -/
theorem Upload_before_Start_returns_no_error :
    (Upload (memSDK noFaults) (NewClient exampleConfig) "report.pdf" [] emptyStore).out
      = .panicked ∧
    ¬ ∃ e : GoError,
      (Upload (memSDK noFaults) (NewClient exampleConfig) "report.pdf" [] emptyStore).out
        = .returned (some e) := by
  simp [Upload, NewClient]

/-- C2: when session creation succeeds and the existence check answers (true, nil), `Start`
returns a nil error (with the new session handle) and issues no create-bucket call. -/
theorem Start_existing_bucket {W C B : Type} (sdk : SDK W C B) (o : ossInstance C) (w w1 w2 : W)
    (c : C)
    (hNew : sdk.New o.OSSCOnfig.Endpoint o.OSSCOnfig.AccessKeyId o.OSSCOnfig.AccessKeySecret w
      = ((some c, none), w1))
    (hExist : sdk.IsBucketExist c o.OSSCOnfig.Bucket w1 = ((true, none), w2)) :
    (Start sdk o w).out = .returned (some c, none) ∧
    ∀ ev ∈ (Start sdk o w).calls, ev.isCreateBucket = false := by
  simp [Start, hNew, hExist, Event.isCreateBucket]

/-- Witness of C2: the in-memory service that already holds the bucket. -/
theorem Start_existing_bucket_witness :
    (Start (memSDK noFaults) (NewClient exampleConfig) started.world).out
      = .returned (some exampleClient, none) ∧
    ∀ ev ∈ (Start (memSDK noFaults) (NewClient exampleConfig) started.world).calls,
      ev.isCreateBucket = false :=
  Start_existing_bucket (memSDK noFaults) (NewClient exampleConfig) started.world started.world
    started.world exampleClient
    (by simp [memSDK, noFaults, NewClient, exampleConfig, exampleClient])
    (by simp [memSDK, noFaults, NewClient, exampleConfig, started, Start, emptyStore])

/-- C3: on the in-memory service (a set of bucket names, create-bucket adds the name), when
the configured bucket is absent and session creation, existence check and creation are not
rejected, `Start` returns a nil error and the bucket is in the service state afterward; a
second `Start` on the resulting instance and state returns a nil error too and issues no
create-bucket call. -/
theorem Start_creates_absent_bucket (f : Faults) (o : ossInstance MemClient) (s : MemStore)
    (hAbsent : o.OSSCOnfig.Bucket ∉ s.buckets)
    (hNew : f.New o.OSSCOnfig.Endpoint o.OSSCOnfig.AccessKeyId o.OSSCOnfig.AccessKeySecret = none)
    (hExist : f.IsBucketExist o.OSSCOnfig.Bucket = none)
    (hCreate : f.CreateBucket o.OSSCOnfig.Bucket = none) :
    (∃ c, (Start (memSDK f) o s).out = .returned (some c, none)) ∧
    o.OSSCOnfig.Bucket ∈ (Start (memSDK f) o s).world.buckets ∧
    (Start (memSDK f) o s).world.buckets = insert o.OSSCOnfig.Bucket s.buckets ∧
    (∃ c, (Start (memSDK f) (Start (memSDK f) o s).self (Start (memSDK f) o s).world).out
      = .returned (some c, none)) ∧
    (∀ ev ∈ (Start (memSDK f) (Start (memSDK f) o s).self (Start (memSDK f) o s).world).calls,
      ev.isCreateBucket = false) ∧
    (Start (memSDK f) (Start (memSDK f) o s).self (Start (memSDK f) o s).world).world
      = (Start (memSDK f) o s).world := by
  have h1 : Start (memSDK f) o s =
      ⟨.returned (some ⟨o.OSSCOnfig.Endpoint, o.OSSCOnfig.AccessKeyId,
          o.OSSCOnfig.AccessKeySecret⟩, none),
        ⟨o.OSSCOnfig, some ⟨o.OSSCOnfig.Endpoint, o.OSSCOnfig.AccessKeyId,
          o.OSSCOnfig.AccessKeySecret⟩⟩,
        ⟨insert o.OSSCOnfig.Bucket s.buckets, s.objects⟩,
        [.New o.OSSCOnfig.Endpoint o.OSSCOnfig.AccessKeyId o.OSSCOnfig.AccessKeySecret
            (some ⟨o.OSSCOnfig.Endpoint, o.OSSCOnfig.AccessKeyId,
              o.OSSCOnfig.AccessKeySecret⟩) none,
          .IsBucketExist ⟨o.OSSCOnfig.Endpoint, o.OSSCOnfig.AccessKeyId,
            o.OSSCOnfig.AccessKeySecret⟩ o.OSSCOnfig.Bucket false none,
          .CreateBucket ⟨o.OSSCOnfig.Endpoint, o.OSSCOnfig.AccessKeyId,
            o.OSSCOnfig.AccessKeySecret⟩ o.OSSCOnfig.Bucket none], []⟩ := by
    simp [Start, memSDK, hNew, hExist, hCreate, hAbsent]
  rw [h1]
  simp [Start, memSDK, hNew, hExist, hCreate, Event.isCreateBucket]

/-- Witness of C3: the spec's config on the empty in-memory service. -/
theorem Start_creates_absent_bucket_witness :
    (NewClient exampleConfig : ossInstance MemClient).OSSCOnfig.Bucket ∉ emptyStore.buckets ∧
    "assets-test" ∈ (Start (memSDK noFaults) (NewClient exampleConfig) emptyStore).world.buckets ∧
    ∀ ev ∈ (Start (memSDK noFaults)
        (Start (memSDK noFaults) (NewClient exampleConfig) emptyStore).self
        (Start (memSDK noFaults) (NewClient exampleConfig) emptyStore).world).calls,
      ev.isCreateBucket = false :=
  ⟨by simp [NewClient, exampleConfig, emptyStore],
    (Start_creates_absent_bucket noFaults (NewClient exampleConfig) emptyStore
      (by simp [NewClient, exampleConfig, emptyStore]) rfl rfl rfl).2.1,
    (Start_creates_absent_bucket noFaults (NewClient exampleConfig) emptyStore
      (by simp [NewClient, exampleConfig, emptyStore]) rfl rfl rfl).2.2.2.2.1⟩

/-- C4: every put-object request `Upload` issues goes to the handle the SDK resolved for the
configured bucket on the stored session, with exactly the given key, exactly the given payload
and the single option `ObjectACL(ACLPrivate)`; `Start` and `GetSignedURL` issue no put-object
request at all.  What `Upload` leaves behind is that private request and nothing else: with a
resolved handle its SDK calls are the resolution and that one put-object, its result is the
error of that put-object and the service state is the state that put-object produced; without
a resolved handle the service state is the one the resolution left (the state before the call
on a nil session handle).  The service state `Start` and `GetSignedURL` leave is one produced
by their own SDK calls (session creation, existence check, create-bucket; resolution,
sign-URL), never by a put-object. -/
theorem put_object_always_private {W C B : Type} (sdk : SDK W C B) (o : ossInstance C)
    (key : String) (object : List UInt8) (w : W) :
    (∀ ev ∈ (Upload sdk o key object w).calls, ev.isPutObject = true →
      ∃ c b w1 err, o.client = some c ∧
        sdk.Bucket c o.OSSCOnfig.Bucket w = ((some b, none), w1) ∧
        err = (sdk.PutObject b key object [.ObjectACL .ACLPrivate] w1).1 ∧
        ev = .PutObject b key object [.ObjectACL .ACLPrivate] err) ∧
    (∀ ev ∈ (Start sdk o w).calls, ev.isPutObject = false) ∧
    (∀ (k : String) (expiredInSec : Int),
      ∀ ev ∈ (GetSignedURL sdk o k expiredInSec w).calls, ev.isPutObject = false) ∧
    (∀ c b w1, o.client = some c →
      sdk.Bucket c o.OSSCOnfig.Bucket w = ((some b, none), w1) →
      (Upload sdk o key object w).calls =
        [.Bucket c o.OSSCOnfig.Bucket (some b) none,
          .PutObject b key object [.ObjectACL .ACLPrivate]
            (sdk.PutObject b key object [.ObjectACL .ACLPrivate] w1).1] ∧
      (Upload sdk o key object w).out =
        .returned (sdk.PutObject b key object [.ObjectACL .ACLPrivate] w1).1 ∧
      (Upload sdk o key object w).world =
        (sdk.PutObject b key object [.ObjectACL .ACLPrivate] w1).2 ∧
      (Upload sdk o key object w).self = o) ∧
    (∀ c, o.client = some c →
      (∀ b, (sdk.Bucket c o.OSSCOnfig.Bucket w).1 ≠ (some b, none)) →
      (Upload sdk o key object w).calls =
        [.Bucket c o.OSSCOnfig.Bucket (sdk.Bucket c o.OSSCOnfig.Bucket w).1.1
          (sdk.Bucket c o.OSSCOnfig.Bucket w).1.2] ∧
      (Upload sdk o key object w).world = (sdk.Bucket c o.OSSCOnfig.Bucket w).2 ∧
      (Upload sdk o key object w).self = o) ∧
    (o.client = none →
      (Upload sdk o key object w).calls = [] ∧
      (Upload sdk o key object w).out = .panicked ∧
      (Upload sdk o key object w).world = w ∧
      (Upload sdk o key object w).self = o) ∧
    ((Start sdk o w).world =
        (sdk.New o.OSSCOnfig.Endpoint o.OSSCOnfig.AccessKeyId o.OSSCOnfig.AccessKeySecret w).2 ∨
      ∃ c,
        (sdk.New o.OSSCOnfig.Endpoint o.OSSCOnfig.AccessKeyId o.OSSCOnfig.AccessKeySecret w).1.1
          = some c ∧
        ((Start sdk o w).world =
            (sdk.IsBucketExist c o.OSSCOnfig.Bucket
              (sdk.New o.OSSCOnfig.Endpoint o.OSSCOnfig.AccessKeyId
                o.OSSCOnfig.AccessKeySecret w).2).2 ∨
          (Start sdk o w).world =
            (sdk.CreateBucket c o.OSSCOnfig.Bucket
              (sdk.IsBucketExist c o.OSSCOnfig.Bucket
                (sdk.New o.OSSCOnfig.Endpoint o.OSSCOnfig.AccessKeyId
                  o.OSSCOnfig.AccessKeySecret w).2).2).2)) ∧
    (∀ (k : String) (expiredInSec : Int),
      (GetSignedURL sdk o k expiredInSec w).world = w ∨
      ∃ c, o.client = some c ∧
        ((GetSignedURL sdk o k expiredInSec w).world = (sdk.Bucket c o.OSSCOnfig.Bucket w).2 ∨
          ∃ b, (sdk.Bucket c o.OSSCOnfig.Bucket w).1.1 = some b ∧
            (GetSignedURL sdk o k expiredInSec w).world =
              (sdk.SignURL b k .HTTPGet expiredInSec
                (sdk.Bucket c o.OSSCOnfig.Bucket w).2).2)) := by
  refine ⟨?_, ?_, ?_, ?_, ?_, ?_, ?_, ?_⟩
  · cases hc : o.client with
    | none => simp [Upload, hc]
    | some c =>
      rcases hb : sdk.Bucket c o.OSSCOnfig.Bucket w with ⟨⟨_ | b, _ | e⟩, w1⟩
      · simp [Upload, hc, hb, Event.isPutObject]
      · simp [Upload, hc, hb, Event.isPutObject]
      · rcases hp : sdk.PutObject b key object [.ObjectACL .ACLPrivate] w1 with ⟨_ | e, w2⟩ <;>
          simp [Upload, hc, hb, hp, Event.isPutObject] <;>
          exact ⟨b, w1, ⟨rfl, rfl⟩, rfl, by rw [hp]⟩
      · simp [Upload, hc, hb, Event.isPutObject]
  · rcases hn : sdk.New o.OSSCOnfig.Endpoint o.OSSCOnfig.AccessKeyId o.OSSCOnfig.AccessKeySecret w
      with ⟨⟨_ | c, _ | e⟩, w1⟩
    · simp [Start, hn, Event.isPutObject]
    · simp [Start, hn, Event.isPutObject]
    · rcases hx : sdk.IsBucketExist c o.OSSCOnfig.Bucket w1 with ⟨⟨_ | _, _ | e⟩, w2⟩
      · rcases hk : sdk.CreateBucket c o.OSSCOnfig.Bucket w2 with ⟨_ | e, w3⟩ <;>
          simp [Start, hn, hx, hk, Event.isPutObject]
      · simp [Start, hn, hx, Event.isPutObject]
      · simp [Start, hn, hx, Event.isPutObject]
      · simp [Start, hn, hx, Event.isPutObject]
    · simp [Start, hn, Event.isPutObject]
  · intro k expiredInSec
    cases hc : o.client with
    | none => simp [GetSignedURL, hc]
    | some c =>
      rcases hb : sdk.Bucket c o.OSSCOnfig.Bucket w with ⟨⟨_ | b, _ | e⟩, w1⟩
      · simp [GetSignedURL, hc, hb, Event.isPutObject]
      · simp [GetSignedURL, hc, hb, Event.isPutObject]
      · rcases hp : sdk.SignURL b k .HTTPGet expiredInSec w1 with ⟨⟨u, _ | e⟩, w2⟩ <;>
          simp [GetSignedURL, hc, hb, hp, Event.isPutObject]
      · simp [GetSignedURL, hc, hb, Event.isPutObject]
  · intro c b w1 hc hb
    rcases hp : sdk.PutObject b key object [.ObjectACL .ACLPrivate] w1 with ⟨_ | e, w2⟩ <;>
      simp [Upload, hc, hb, hp]
  · intro c hc
    rcases hb : sdk.Bucket c o.OSSCOnfig.Bucket w with ⟨⟨_ | b, _ | e⟩, w1⟩
    · simp [Upload, hc, hb]
    · simp [Upload, hc, hb]
    · intro h
      exact absurd rfl (h b)
    · simp [Upload, hc, hb]
  · intro hc
    simp [Upload, hc]
  · rcases hn : sdk.New o.OSSCOnfig.Endpoint o.OSSCOnfig.AccessKeyId o.OSSCOnfig.AccessKeySecret w
      with ⟨⟨_ | c, _ | e⟩, w1⟩
    · simp [Start, hn]
    · simp [Start, hn]
    · rcases hx : sdk.IsBucketExist c o.OSSCOnfig.Bucket w1 with ⟨⟨_ | _, _ | e⟩, w2⟩
      · rcases hk : sdk.CreateBucket c o.OSSCOnfig.Bucket w2 with ⟨_ | e, w3⟩ <;>
          simp [Start, hn, hx, hk]
      · simp [Start, hn, hx]
      · simp [Start, hn, hx]
      · simp [Start, hn, hx]
    · simp [Start, hn]
  · intro k expiredInSec
    cases hc : o.client with
    | none => simp [GetSignedURL, hc]
    | some c =>
      rcases hb : sdk.Bucket c o.OSSCOnfig.Bucket w with ⟨⟨_ | b, _ | e⟩, w1⟩
      · simp [GetSignedURL, hc, hb]
      · simp [GetSignedURL, hc, hb]
      · rcases hp : sdk.SignURL b k .HTTPGet expiredInSec w1 with ⟨⟨u, _ | e⟩, w2⟩ <;>
          simp [GetSignedURL, hc, hb, hp]
      · simp [GetSignedURL, hc, hb]

/-- Witness of C4: an `Upload` of the empty payload on the started instance issues a
put-object request, that request is private, and the service state the `Upload` leaves is the
state that private put-object produced: the empty object is stored under the key. -/
theorem put_object_always_private_witness :
    examplePut ∈ (Upload (memSDK noFaults) started.self "report.pdf" [] started.world).calls ∧
    examplePut.isPutObject = true ∧
    (∃ c b w1 err, started.self.client = some c ∧
      (memSDK noFaults).Bucket c started.self.OSSCOnfig.Bucket started.world
        = ((some b, none), w1) ∧
      err = ((memSDK noFaults).PutObject b "report.pdf" [] [.ObjectACL .ACLPrivate] w1).1 ∧
      examplePut = .PutObject b "report.pdf" [] [.ObjectACL .ACLPrivate] err) ∧
    (Upload (memSDK noFaults) started.self "report.pdf" [] started.world).world =
      ((memSDK noFaults).PutObject ⟨exampleClient, "assets-test"⟩ "report.pdf" []
        [.ObjectACL .ACLPrivate] started.world).2 ∧
    (Upload (memSDK noFaults) started.self "report.pdf" [] started.world).world.objects
      "assets-test" "report.pdf" = some [] :=
  ⟨by simp [Upload, memSDK, noFaults, started, Start, NewClient, exampleConfig, exampleClient,
      emptyStore, examplePut],
    rfl,
    (put_object_always_private (memSDK noFaults) started.self "report.pdf" [] started.world).1
      examplePut
      (by simp [Upload, memSDK, noFaults, started, Start, NewClient, exampleConfig,
        exampleClient, emptyStore, examplePut])
      rfl,
    ((put_object_always_private (memSDK noFaults) started.self "report.pdf" []
      started.world).2.2.2.1 exampleClient ⟨exampleClient, "assets-test"⟩ started.world
      rfl rfl).2.2.1,
    rfl⟩

/-- C5: in every sequence of `Start`, `Upload` and `GetSignedURL` calls on the instance
`NewClient` returns, a `GetSignedURL` that returns a signed URL with a nil error is preceded
in the sequence by a `Start` that returned a nil error, after the session was created and the
configured bucket was observed to exist or was created. -/
theorem signed_url_only_after_Start {W C B : Type} (sdk : SDK W C B) (conf : OSSCOnfig) (w : W)
    (ops : List Op) (i : Nat) (st : Step C B) (url : String)
    (hStep : (run sdk (NewClient conf) w ops)[i]? = some st)
    (hSigned : st.result = .GetSignedURL (.returned (url, none))) :
    ∃ j, j < i ∧ ∃ st0 c, (run sdk (NewClient conf) w ops)[j]? = some st0 ∧ st0.op = .Start ∧
      st0.result = .Start (.returned (some c, none)) ∧
      startConfirmed conf.Bucket st0.calls := by
  rcases run_signed sdk ops (NewClient conf) w i st url hStep hSigned with h | h
  · exact absurd rfl h
  · exact h

/-- Witness of C5: in the spec's scenario the signed URL of the third call comes after the
successful `Start` of the first. -/
theorem signed_url_only_after_Start_witness :
    (run (memSDK noFaults) (NewClient exampleConfig) emptyStore scenario)[2]? =
      some ⟨.GetSignedURL "report.pdf" 60,
        .GetSignedURL (.returned ("signed://assets-test/report.pdf", none)),
        [.Bucket exampleClient "assets-test" (some ⟨exampleClient, "assets-test"⟩) none,
          .SignURL ⟨exampleClient, "assets-test"⟩ "report.pdf" .HTTPGet 60
            "signed://assets-test/report.pdf" none]⟩ ∧
    ∃ j, j < 2 ∧ ∃ st0 c,
      (run (memSDK noFaults) (NewClient exampleConfig) emptyStore scenario)[j]? = some st0 ∧
      st0.op = .Start ∧ st0.result = .Start (.returned (some c, none)) ∧
      startConfirmed exampleConfig.Bucket st0.calls :=
  ⟨rfl,
    signed_url_only_after_Start (memSDK noFaults) exampleConfig emptyStore scenario 2
      ⟨.GetSignedURL "report.pdf" 60,
        .GetSignedURL (.returned ("signed://assets-test/report.pdf", none)),
        [.Bucket exampleClient "assets-test" (some ⟨exampleClient, "assets-test"⟩) none,
          .SignURL ⟨exampleClient, "assets-test"⟩ "report.pdf" .HTTPGet 60
            "signed://assets-test/report.pdf" none]⟩
      "signed://assets-test/report.pdf" rfl rfl⟩

/-- C6: in `Start`, `Upload` and `GetSignedURL`, an error `e` returned by any SDK call of the
operation is exactly the error the operation returns to its caller, and the operation
returns a nil error only if every SDK call it issued returned a nil error. -/
theorem sdk_errors_returned_unchanged {W C B : Type} (sdk : SDK W C B) (o : ossInstance C)
    (key : String) (object : List UInt8) (expiredInSec : Int) (w : W) :
    (∀ ev ∈ (Start sdk o w).calls, ∀ e, ev.err = some e →
      ∃ cl, (Start sdk o w).out = .returned (cl, some e)) ∧
    (∀ cl, (Start sdk o w).out = .returned (cl, none) →
      ∀ ev ∈ (Start sdk o w).calls, ev.err = none) ∧
    (∀ ev ∈ (Upload sdk o key object w).calls, ∀ e, ev.err = some e →
      (Upload sdk o key object w).out = .returned (some e)) ∧
    ((Upload sdk o key object w).out = .returned none →
      ∀ ev ∈ (Upload sdk o key object w).calls, ev.err = none) ∧
    (∀ ev ∈ (GetSignedURL sdk o key expiredInSec w).calls, ∀ e, ev.err = some e →
      ∃ url, (GetSignedURL sdk o key expiredInSec w).out = .returned (url, some e)) ∧
    (∀ url, (GetSignedURL sdk o key expiredInSec w).out = .returned (url, none) →
      ∀ ev ∈ (GetSignedURL sdk o key expiredInSec w).calls, ev.err = none) := by
  have hStart : (∀ ev ∈ (Start sdk o w).calls, ∀ e, ev.err = some e →
        ∃ cl, (Start sdk o w).out = .returned (cl, some e)) ∧
      (∀ cl, (Start sdk o w).out = .returned (cl, none) →
        ∀ ev ∈ (Start sdk o w).calls, ev.err = none) := by
    rcases hn : sdk.New o.OSSCOnfig.Endpoint o.OSSCOnfig.AccessKeyId o.OSSCOnfig.AccessKeySecret w
      with ⟨⟨_ | c, _ | e⟩, w1⟩
    · simp [Start, hn, Event.err]
    · simp [Start, hn, Event.err]
    · rcases hx : sdk.IsBucketExist c o.OSSCOnfig.Bucket w1 with ⟨⟨_ | _, _ | e⟩, w2⟩
      · rcases hk : sdk.CreateBucket c o.OSSCOnfig.Bucket w2 with ⟨_ | e, w3⟩ <;>
          simp [Start, hn, hx, hk, Event.err]
      · simp [Start, hn, hx, Event.err]
      · simp [Start, hn, hx, Event.err]
      · simp [Start, hn, hx, Event.err]
    · simp [Start, hn, Event.err]
  have hUpload : (∀ ev ∈ (Upload sdk o key object w).calls, ∀ e, ev.err = some e →
        (Upload sdk o key object w).out = .returned (some e)) ∧
      ((Upload sdk o key object w).out = .returned none →
        ∀ ev ∈ (Upload sdk o key object w).calls, ev.err = none) := by
    cases hc : o.client with
    | none => simp [Upload, hc]
    | some c =>
      rcases hb : sdk.Bucket c o.OSSCOnfig.Bucket w with ⟨⟨_ | b, _ | e⟩, w1⟩
      · simp [Upload, hc, hb, Event.err]
      · simp [Upload, hc, hb, Event.err]
      · rcases hp : sdk.PutObject b key object [.ObjectACL .ACLPrivate] w1 with ⟨_ | e, w2⟩ <;>
          simp [Upload, hc, hb, hp, Event.err]
      · simp [Upload, hc, hb, Event.err]
  have hSign : (∀ ev ∈ (GetSignedURL sdk o key expiredInSec w).calls, ∀ e, ev.err = some e →
        ∃ url, (GetSignedURL sdk o key expiredInSec w).out = .returned (url, some e)) ∧
      (∀ url, (GetSignedURL sdk o key expiredInSec w).out = .returned (url, none) →
        ∀ ev ∈ (GetSignedURL sdk o key expiredInSec w).calls, ev.err = none) := by
    cases hc : o.client with
    | none => simp [GetSignedURL, hc]
    | some c =>
      rcases hb : sdk.Bucket c o.OSSCOnfig.Bucket w with ⟨⟨_ | b, _ | e⟩, w1⟩
      · simp [GetSignedURL, hc, hb, Event.err]
      · simp [GetSignedURL, hc, hb, Event.err]
      · rcases hp : sdk.SignURL b key .HTTPGet expiredInSec w1 with ⟨⟨u, _ | e⟩, w2⟩ <;>
          simp [GetSignedURL, hc, hb, hp, Event.err]
      · simp [GetSignedURL, hc, hb, Event.err]
  exact ⟨hStart.1, hStart.2, hUpload.1, hUpload.2, hSign.1, hSign.2⟩

/-- Witness of C6: the error of a rejected bucket-handle resolution is the error `Upload`
returns. -/
theorem sdk_errors_returned_unchanged_witness :
    Event.Bucket exampleClient "assets-test" none (some ⟨"AccessDenied"⟩)
      ∈ (Upload (memSDK denyBucket) started.self "report.pdf" [1, 2, 3] started.world).calls ∧
    (Upload (memSDK denyBucket) started.self "report.pdf" [1, 2, 3] started.world).out
      = .returned (some ⟨"AccessDenied"⟩) :=
  ⟨by simp [Upload, memSDK, denyBucket, noFaults, started, Start, NewClient, exampleConfig,
      exampleClient, emptyStore],
    (sdk_errors_returned_unchanged (memSDK denyBucket) started.self "report.pdf" [1, 2, 3] 60
      started.world).2.2.1
      (.Bucket exampleClient "assets-test" none (some ⟨"AccessDenied"⟩))
      (by simp [Upload, memSDK, denyBucket, noFaults, started, Start, NewClient, exampleConfig,
        exampleClient, emptyStore])
      ⟨"AccessDenied"⟩ rfl⟩

/-- C7 amended: on a started instance, for every key and every `expiredInSec`: when the
SDK resolves the handle of the configured bucket, `GetSignedURL` issues after the resolution
exactly one request, a sign-URL on that handle with the key unchanged, method GET and expiry
`expiredInSec`, and returns exactly the string and the error the signer returned; when the
resolution does not give a handle with a nil error, it issues no sign-URL request. -/
theorem GetSignedURL_started {W C B : Type} (sdk : SDK W C B) (o : ossInstance C) (c : C)
    (key : String) (expiredInSec : Int) (w : W) (hStarted : o.client = some c) :
    (∀ b w1, sdk.Bucket c o.OSSCOnfig.Bucket w = ((some b, none), w1) →
      (GetSignedURL sdk o key expiredInSec w).calls =
        [.Bucket c o.OSSCOnfig.Bucket (some b) none,
          .SignURL b key .HTTPGet expiredInSec
            (sdk.SignURL b key .HTTPGet expiredInSec w1).1.1
            (sdk.SignURL b key .HTTPGet expiredInSec w1).1.2] ∧
      (GetSignedURL sdk o key expiredInSec w).calls.countP Event.isSignURL = 1 ∧
      (GetSignedURL sdk o key expiredInSec w).out =
        .returned (sdk.SignURL b key .HTTPGet expiredInSec w1).1 ∧
      (GetSignedURL sdk o key expiredInSec w).world =
        (sdk.SignURL b key .HTTPGet expiredInSec w1).2) ∧
    ((∀ b, (sdk.Bucket c o.OSSCOnfig.Bucket w).1 ≠ (some b, none)) →
      (GetSignedURL sdk o key expiredInSec w).calls =
        [.Bucket c o.OSSCOnfig.Bucket (sdk.Bucket c o.OSSCOnfig.Bucket w).1.1
          (sdk.Bucket c o.OSSCOnfig.Bucket w).1.2] ∧
      (GetSignedURL sdk o key expiredInSec w).calls.countP Event.isSignURL = 0) := by
  rcases hb : sdk.Bucket c o.OSSCOnfig.Bucket w with ⟨⟨_ | b, _ | e⟩, w1⟩
  · simp [GetSignedURL, hStarted, hb, Event.isSignURL]
  · simp [GetSignedURL, hStarted, hb, Event.isSignURL]
  · rcases hp : sdk.SignURL b key .HTTPGet expiredInSec w1 with ⟨⟨u, _ | e⟩, w2⟩ <;>
      simp [GetSignedURL, hStarted, hb, hp, Event.isSignURL]
  · simp [GetSignedURL, hStarted, hb, Event.isSignURL]

/-- Witness of C7, amended: the started instance of the spec's scenario. -/
theorem GetSignedURL_started_witness :
    started.self.client = some exampleClient ∧
    (memSDK noFaults).Bucket exampleClient started.self.OSSCOnfig.Bucket started.world
      = ((some ⟨exampleClient, "assets-test"⟩, none), started.world) ∧
    (GetSignedURL (memSDK noFaults) started.self "report.pdf" 60 started.world).calls.countP
      Event.isSignURL = 1 ∧
    (GetSignedURL (memSDK noFaults) started.self "report.pdf" 60 started.world).out
      = .returned ((memSDK noFaults).SignURL ⟨exampleClient, "assets-test"⟩ "report.pdf"
          .HTTPGet 60 started.world).1 :=
  ⟨rfl, rfl,
    ((GetSignedURL_started (memSDK noFaults) started.self exampleClient "report.pdf" 60
      started.world rfl).1 ⟨exampleClient, "assets-test"⟩ started.world rfl).2.1,
    ((GetSignedURL_started (memSDK noFaults) started.self exampleClient "report.pdf" 60
      started.world rfl).1 ⟨exampleClient, "assets-test"⟩ started.world rfl).2.2.1⟩

/-- C7 as stated fails: on the instance a successful `Start` left, a `GetSignedURL` whose
bucket-handle resolution is rejected issues no sign-URL request, not exactly one. -/
theorem rejected_resolution_skips_SignURL :
    (Start (memSDK denyBucket) (NewClient exampleConfig) emptyStore).out
      = .returned (some exampleClient, none) ∧
    (Start (memSDK denyBucket) (NewClient exampleConfig) emptyStore).self.client
      = some exampleClient ∧
    (GetSignedURL (memSDK denyBucket)
      (Start (memSDK denyBucket) (NewClient exampleConfig) emptyStore).self "report.pdf" 60
      (Start (memSDK denyBucket) (NewClient exampleConfig) emptyStore).world).out
      = .returned ("", some ⟨"AccessDenied"⟩) ∧
    ¬ (GetSignedURL (memSDK denyBucket)
      (Start (memSDK denyBucket) (NewClient exampleConfig) emptyStore).self "report.pdf" 60
      (Start (memSDK denyBucket) (NewClient exampleConfig) emptyStore).world).calls.countP
        Event.isSignURL = 1 := by
  simp [Start, GetSignedURL, memSDK, denyBucket, NewClient, exampleConfig, exampleClient,
    emptyStore, Event.isSignURL]

/-- C8: on the in-memory service (a map from (bucket, key) to payload, put-object replaces
the entry), after an `Upload` of `a` under `key` that returned a nil error followed by an
`Upload` of `b` under `key` that returned a nil error, the object stored under `key` in the
configured bucket is exactly `b`, and the entry of every other (bucket, key) is the entry
before the two uploads. -/
theorem Upload_last_write_wins (f : Faults) (o : ossInstance MemClient) (key : String)
    (a b : List UInt8) (s : MemStore)
    (hFirst : (Upload (memSDK f) o key a s).out = .returned none)
    (hSecond : (Upload (memSDK f) (Upload (memSDK f) o key a s).self key b
      (Upload (memSDK f) o key a s).world).out = .returned none) :
    (Upload (memSDK f) (Upload (memSDK f) o key a s).self key b
      (Upload (memSDK f) o key a s).world).world.objects o.OSSCOnfig.Bucket key = some b ∧
    (∀ bn k, ¬ (bn = o.OSSCOnfig.Bucket ∧ k = key) →
      (Upload (memSDK f) (Upload (memSDK f) o key a s).self key b
        (Upload (memSDK f) o key a s).world).world.objects bn k = s.objects bn k) ∧
    (Upload (memSDK f) (Upload (memSDK f) o key a s).self key b
      (Upload (memSDK f) o key a s).world).world.buckets = s.buckets := by
  cases hc : o.client with
  | none => simp [Upload, hc] at hFirst
  | some c =>
    cases hfb : f.Bucket o.OSSCOnfig.Bucket with
    | some e => simp [Upload, memSDK, hc, hfb] at hFirst
    | none =>
      cases hfa : f.PutObject o.OSSCOnfig.Bucket key a with
      | some e => simp [Upload, memSDK, hc, hfb, hfa] at hFirst
      | none =>
        cases hfp : f.PutObject o.OSSCOnfig.Bucket key b with
        | some e => simp [Upload, memSDK, hc, hfb, hfa, hfp] at hSecond
        | none =>
          simp only [Upload, memSDK, hc, hfb, hfa, hfp]
          refine ⟨by simp, ?_, trivial⟩
          intro bn k hne
          simp [hne]

/-- Witness of C8: two uploads under one key on the started instance. -/
theorem Upload_last_write_wins_witness :
    (Upload (memSDK noFaults) started.self "report.pdf" [1, 2, 3] started.world).out
      = .returned none ∧
    (Upload (memSDK noFaults)
      (Upload (memSDK noFaults) started.self "report.pdf" [1, 2, 3] started.world).self
      "report.pdf" [4, 5]
      (Upload (memSDK noFaults) started.self "report.pdf" [1, 2, 3] started.world).world).world.objects
        started.self.OSSCOnfig.Bucket "report.pdf" = some [4, 5] :=
  ⟨rfl,
    (Upload_last_write_wins noFaults started.self "report.pdf" [1, 2, 3] [4, 5] started.world
      rfl rfl).1⟩

/-- C9: one `Start` issues session creation exactly once, the existence check at most once
and create-bucket at most once; an SDK call that returns an error is the last SDK call of the
operation (a failed session creation is the only call, a failed existence check is followed by
no create-bucket).  One `Upload` issues at most one bucket-handle resolution and at most one
put-object, one `GetSignedURL` at most one resolution and at most one sign-URL, and a failed
resolution is followed by no put-object and no sign-URL. -/
theorem no_retries {W C B : Type} (sdk : SDK W C B) (o : ossInstance C)
    (key : String) (object : List UInt8) (expiredInSec : Int) (w : W) :
    ((Start sdk o w).calls.countP Event.isNew = 1 ∧
      (Start sdk o w).calls.countP Event.isIsBucketExist ≤ 1 ∧
      (Start sdk o w).calls.countP Event.isCreateBucket ≤ 1 ∧
      (Start sdk o w).calls.length ≤ 3 ∧
      (∀ ev ∈ (Start sdk o w).calls, ev.err ≠ none → (Start sdk o w).calls.getLast? = some ev) ∧
      (∀ ev ∈ (Start sdk o w).calls, ev.isNew = true → ev.err ≠ none →
        (Start sdk o w).calls = [ev]) ∧
      (∀ ev ∈ (Start sdk o w).calls, ev.isIsBucketExist = true → ev.err ≠ none →
        ∀ ev2 ∈ (Start sdk o w).calls, ev2.isCreateBucket = false)) ∧
    ((Upload sdk o key object w).calls.countP Event.isBucket ≤ 1 ∧
      (Upload sdk o key object w).calls.countP Event.isPutObject ≤ 1 ∧
      (Upload sdk o key object w).calls.length ≤ 2 ∧
      (∀ ev ∈ (Upload sdk o key object w).calls, ev.err ≠ none →
        (Upload sdk o key object w).calls.getLast? = some ev) ∧
      (∀ ev ∈ (Upload sdk o key object w).calls, ev.isBucket = true → ev.err ≠ none →
        ∀ ev2 ∈ (Upload sdk o key object w).calls, ev2.isPutObject = false)) ∧
    ((GetSignedURL sdk o key expiredInSec w).calls.countP Event.isBucket ≤ 1 ∧
      (GetSignedURL sdk o key expiredInSec w).calls.countP Event.isSignURL ≤ 1 ∧
      (GetSignedURL sdk o key expiredInSec w).calls.length ≤ 2 ∧
      (∀ ev ∈ (GetSignedURL sdk o key expiredInSec w).calls, ev.err ≠ none →
        (GetSignedURL sdk o key expiredInSec w).calls.getLast? = some ev) ∧
      (∀ ev ∈ (GetSignedURL sdk o key expiredInSec w).calls, ev.isBucket = true →
        ev.err ≠ none →
        ∀ ev2 ∈ (GetSignedURL sdk o key expiredInSec w).calls, ev2.isSignURL = false)) := by
  refine ⟨?_, ?_, ?_⟩
  · rcases hn : sdk.New o.OSSCOnfig.Endpoint o.OSSCOnfig.AccessKeyId o.OSSCOnfig.AccessKeySecret w
      with ⟨⟨_ | c, _ | e⟩, w1⟩
    · simp [Start, hn, Event.err, Event.isNew, Event.isIsBucketExist, Event.isCreateBucket]
    · simp [Start, hn, Event.err, Event.isNew, Event.isIsBucketExist, Event.isCreateBucket]
    · rcases hx : sdk.IsBucketExist c o.OSSCOnfig.Bucket w1 with ⟨⟨_ | _, _ | e⟩, w2⟩
      · rcases hk : sdk.CreateBucket c o.OSSCOnfig.Bucket w2 with ⟨_ | e, w3⟩ <;>
          simp [Start, hn, hx, hk, Event.err, Event.isNew, Event.isIsBucketExist,
            Event.isCreateBucket]
      · simp [Start, hn, hx, Event.err, Event.isNew, Event.isIsBucketExist,
          Event.isCreateBucket]
      · simp [Start, hn, hx, Event.err, Event.isNew, Event.isIsBucketExist,
          Event.isCreateBucket]
      · simp [Start, hn, hx, Event.err, Event.isNew, Event.isIsBucketExist,
          Event.isCreateBucket]
    · simp [Start, hn, Event.err, Event.isNew, Event.isIsBucketExist, Event.isCreateBucket]
  · cases hc : o.client with
    | none => simp [Upload, hc]
    | some c =>
      rcases hb : sdk.Bucket c o.OSSCOnfig.Bucket w with ⟨⟨_ | b, _ | e⟩, w1⟩
      · simp [Upload, hc, hb, Event.err, Event.isBucket, Event.isPutObject]
      · simp [Upload, hc, hb, Event.err, Event.isBucket, Event.isPutObject]
      · rcases hp : sdk.PutObject b key object [.ObjectACL .ACLPrivate] w1 with ⟨_ | e, w2⟩ <;>
          simp [Upload, hc, hb, hp, Event.err, Event.isBucket, Event.isPutObject]
      · simp [Upload, hc, hb, Event.err, Event.isBucket, Event.isPutObject]
  · cases hc : o.client with
    | none => simp [GetSignedURL, hc]
    | some c =>
      rcases hb : sdk.Bucket c o.OSSCOnfig.Bucket w with ⟨⟨_ | b, _ | e⟩, w1⟩
      · simp [GetSignedURL, hc, hb, Event.err, Event.isBucket, Event.isSignURL]
      · simp [GetSignedURL, hc, hb, Event.err, Event.isBucket, Event.isSignURL]
      · rcases hp : sdk.SignURL b key .HTTPGet expiredInSec w1 with ⟨⟨u, _ | e⟩, w2⟩ <;>
          simp [GetSignedURL, hc, hb, hp, Event.err, Event.isBucket, Event.isSignURL]
      · simp [GetSignedURL, hc, hb, Event.err, Event.isBucket, Event.isSignURL]

/-- Witness of C9: a `Start` whose create-bucket is rejected issued each of its three calls
once, and the rejected call is the last one. -/
theorem no_retries_witness :
    (Start (memSDK denyCreate) (NewClient exampleConfig) emptyStore).calls.countP Event.isNew = 1 ∧
    (Start (memSDK denyCreate) (NewClient exampleConfig) emptyStore).calls.getLast? =
      some (.CreateBucket exampleClient "assets-test" (some ⟨"BucketAlreadyExists"⟩)) :=
  ⟨(no_retries (memSDK denyCreate) (NewClient exampleConfig) "report.pdf" [] 60
      emptyStore).1.1,
    (no_retries (memSDK denyCreate) (NewClient exampleConfig) "report.pdf" [] 60
      emptyStore).1.2.2.2.2.1
      (.CreateBucket exampleClient "assets-test" (some ⟨"BucketAlreadyExists"⟩))
      (by simp [Start, memSDK, denyCreate, NewClient, exampleConfig, exampleClient, emptyStore])
      (by simp [Event.err])⟩

/-- C10: `Start` stores the session handle it created exactly when it returns a nil error
(the config is kept); when it returns a non-nil error, or panics, the instance is exactly the
instance before the call. -/
theorem Start_atomic {W C B : Type} (sdk : SDK W C B) (o : ossInstance C) (w : W) :
    (∀ cl, (Start sdk o w).out = .returned (cl, none) →
      ∃ c, cl = some c ∧
        (sdk.New o.OSSCOnfig.Endpoint o.OSSCOnfig.AccessKeyId o.OSSCOnfig.AccessKeySecret w).1
          = (some c, none) ∧
        (Start sdk o w).self = ⟨o.OSSCOnfig, some c⟩) ∧
    (∀ cl e, (Start sdk o w).out = .returned (cl, some e) → (Start sdk o w).self = o) ∧
    ((Start sdk o w).out = .panicked → (Start sdk o w).self = o) ∧
    ((Start sdk o w).self ≠ o → ∃ cl, (Start sdk o w).out = .returned (cl, none)) ∧
    (Start sdk o w).self.OSSCOnfig = o.OSSCOnfig := by
  rcases hn : sdk.New o.OSSCOnfig.Endpoint o.OSSCOnfig.AccessKeyId o.OSSCOnfig.AccessKeySecret w
    with ⟨⟨_ | c, _ | e⟩, w1⟩
  · simp [Start, hn]
  · simp [Start, hn]
  · rcases hx : sdk.IsBucketExist c o.OSSCOnfig.Bucket w1 with ⟨⟨_ | _, _ | e⟩, w2⟩
    · rcases hk : sdk.CreateBucket c o.OSSCOnfig.Bucket w2 with ⟨_ | e, w3⟩ <;>
        simp [Start, hn, hx, hk]
    · simp [Start, hn, hx]
    · simp [Start, hn, hx]
    · simp [Start, hn, hx]
  · simp [Start, hn]

/-- Witness of C10: a `Start` whose create-bucket is rejected leaves the instance `NewClient`
returned as it was, with a nil handle. -/
theorem Start_atomic_witness :
    (Start (memSDK denyCreate) (NewClient exampleConfig) emptyStore).out
      = .returned (some exampleClient, some ⟨"BucketAlreadyExists"⟩) ∧
    (Start (memSDK denyCreate) (NewClient exampleConfig) emptyStore).self
      = NewClient exampleConfig :=
  ⟨rfl,
    (Start_atomic (memSDK denyCreate) (NewClient exampleConfig) emptyStore).2.1
      (some exampleClient) ⟨"BucketAlreadyExists"⟩ rfl⟩

end oss
